import Mathlib

/-!
# Wallet balance performance test: embedding of `main.go`

The program registers a batch of users concurrently, then polls the balance of every user in
rounds and writes one CSV report per round.

Modelling conventions.

* A Go pointer result (`*RegisterResponse`, `*GetBalanceResponse`) is an `Option`; `nil` is
  `none`.  Dereferencing `nil` is a runtime panic, which is modelled explicitly.
* Everything the outside world decides (clock readings, HTTP transport, JSON codec, file
  system) is an explicit environment argument.
* A batch of goroutines is a small-step machine.  Every worker is cut into the shared-memory
  accesses it performs; a schedule is the list of worker ids in the order in which the
  scheduler lets them take their next step.  `x += d` on a shared variable is a load followed
  by a store, as the Go compiler emits it (no atomics, no mutex in the source).
* Loop variables are per-iteration (Go 1.22 semantics): the closure of iteration `i` sees its
  own `i` and `user`.
* The standard logger (`log.Printf`, `log.Println`) is not part of the model.
-/

namespace WalletBalance

/-! ## Data model (main.go:14-38) -/

/-- Go `time.Duration`: a signed 64-bit number of nanoseconds. -/
abbrev Duration := Int

/-- Wraparound in two-complement arithmetic of a Go `int64` result. -/
def wrap64 (x : Int) : Int := (x + 2 ^ 63) % 2 ^ 64 - 2 ^ 63

/-- A Go `float64`, carried as its IEEE-754 bit pattern.  The program never computes with a
balance, it only decodes it and prints it. -/
structure Float64 where
  bits : Nat
  deriving DecidableEq, Repr

/-- Raw JSON text of a value of Go type `interface{}` or `map[string]interface{}`. -/
abbrev JsonValue := String

structure RegisterData where
  AccessRequestCount : Int
  AccessToken : String
  Username : String
  Email : String
  Admin : Bool
  Avatar : JsonValue
  FollowerCount : Int
  FollowingCount : Int
  Info : JsonValue
  deriving DecidableEq, Repr

structure RegisterResponse where
  Data : RegisterData
  Status : String
  Message : String
  Fields : JsonValue
  deriving DecidableEq, Repr

structure GetBalanceResponse where
  Data : Float64
  Status : String
  Message : String
  Fields : JsonValue
  deriving DecidableEq, Repr

/-! ## The outside world of one remote call -/

/-- A value stored in the `map[string]interface{}` that is sent as registration body. -/
inductive Val where
  | str (s : String)
  | int (n : Int)
  deriving DecidableEq, Repr

/-- An HTTP request as built by `http.NewRequest` and `req.Header.Set`. -/
structure Request where
  method : String
  url : String
  headers : List (String × String)
  body : Option String
  deriving DecidableEq, Repr

/-- Everything one remote call obtains from outside the program.
`marshal` is `json.Marshal` (`none` is its error), `urlOk` says whether `http.NewRequest`
accepts the URL, `send` is `client.Do` (`none` is a transport error, otherwise the response
body), `decode` is the JSON decoder on the body (`none` is a decode error) and `elapsed` is
the reading of `time.Since(startTime)`. -/
structure HttpEnv (R : Type) where
  marshal : List (String × Val) → Option String
  urlOk : String → Bool
  send : Request → Option String
  decode : String → Option R
  elapsed : Duration

/-- Request built by `GetBalanceRequest` (main.go:41-47). -/
def balanceRequest (accessToken tokenName : String) : Request :=
  { method := "GET"
    url := "http://localhost:8080/api/user/balance?token=" ++ tokenName
    headers := [("Authorization", "Bearer " ++ accessToken)]
    body := none }

/-- Embedding of `GetBalanceRequest` (main.go:40-67). -/
def GetBalanceRequest (env : HttpEnv GetBalanceResponse) (accessToken tokenName : String) :
    Option GetBalanceResponse × Duration :=
  if env.urlOk ("http://localhost:8080/api/user/balance?token=" ++ tokenName) = false then
    (none, 0)
  else
    match env.send (balanceRequest accessToken tokenName) with
    | none => (none, 0)
    | some body =>
      let duration := env.elapsed
      match env.decode body with
      | none => (none, 0)
      | some response => (some response, duration)

/-- Request built by `RegisterNewUser` (main.go:75-80). -/
def registerRequest (jsonData : String) : Request :=
  { method := "POST"
    url := "http://localhost:8080/api/auth/register"
    headers := [("Content-Type", "application/json")]
    body := some jsonData }

/-- Embedding of `RegisterNewUser` (main.go:69-96). -/
def RegisterNewUser (env : HttpEnv RegisterResponse) (data : List (String × Val)) :
    Option RegisterResponse × Duration :=
  match env.marshal data with
  | none => (none, 0)
  | some jsonData =>
    if env.urlOk "http://localhost:8080/api/auth/register" = false then
      (none, 0)
    else
      match env.send (registerRequest jsonData) with
      | none => (none, 0)
      | some body =>
        let duration := env.elapsed
        match env.decode body with
        | none => (none, 0)
        | some response => (some response, duration)

/-- The failure paths of `GetBalanceRequest`: request construction, transport, decoding. -/
def balanceCallFails (env : HttpEnv GetBalanceResponse) (accessToken tokenName : String) :
    Prop :=
  env.urlOk ("http://localhost:8080/api/user/balance?token=" ++ tokenName) = false ∨
  env.send (balanceRequest accessToken tokenName) = none ∨
  ∃ body, env.send (balanceRequest accessToken tokenName) = some body ∧ env.decode body = none

/-- The failure paths of `RegisterNewUser`: marshalling, request construction, transport,
decoding. -/
def registerCallFails (env : HttpEnv RegisterResponse) (data : List (String × Val)) : Prop :=
  env.marshal data = none ∨
  env.urlOk "http://localhost:8080/api/auth/register" = false ∨
  ∃ jsonData, env.marshal data = some jsonData ∧
    (env.send (registerRequest jsonData) = none ∨
     ∃ body, env.send (registerRequest jsonData) = some body ∧ env.decode body = none)

/-! ## Registration inputs (main.go:106-114) -/

/-- The verb `%d` of `fmt.Sprintf` on a Go integer. -/
def fmtD (n : Int) : String := toString n

/-- The key of slot `i`: `fmt.Sprintf("unix%d%d", time.Now().Unix(), i)` (main.go:106). -/
def registrationKey (now : Int) (i : Nat) : String :=
  "unix" ++ fmtD now ++ fmtD (i : Int)

/-- The map literal `registerationData` (main.go:107-114). -/
def registerationData (key : String) : List (String × Val) :=
  [ ("email", Val.str (key ++ "@gmail.com")),
    ("username", Val.str key),
    ("password", Val.str "Un1x_Generated"),
    ("avatarId", Val.int 1),
    ("verificationCode", Val.str "12345"),
    ("referralCode", Val.str "") ]

/-! ## Bootstrap batch: `RegisterRandomUsers` (main.go:98-125) -/

/-- Locals of the goroutine started for slot `i` (main.go:105-119).  `pc` is the number of
steps the goroutine has taken; `loaded` is the value of `totalSumDuration` read by `+=`. -/
structure RegWorker where
  pc : Nat
  resp : Option RegisterResponse
  duration : Duration
  loaded : Duration

/-- Shared memory of the bootstrap batch, the locals of the goroutines and the list of arguments
with which `RegisterNewUser` has been invoked so far. -/
structure RegState where
  users : List (Option RegisterResponse)
  totalSumDuration : Duration
  workers : Nat → RegWorker
  calls : List (List (String × Val))

/-- State after the spawn loop (main.go:99-104): `users := make([]*RegisterResponse, count)`,
`totalSumDuration := 0`, one goroutine per `i < count`, none of which has run yet. -/
def regInit (count : Nat) : RegState :=
  { users := List.replicate count none
    totalSumDuration := 0
    workers := fun _ => { pc := 0, resp := none, duration := 0, loaded := 0 }
    calls := [] }

/-- One step of goroutine `i` (main.go:105-119).  `now i` is the reading of
`time.Now().Unix()` by goroutine `i` and `env i` the outside world of its call.
A goroutine that does not exist (`count ≤ i`) or has returned takes no step. -/
def regStep (count : Nat) (now : Nat → Int) (env : Nat → HttpEnv RegisterResponse)
    (st : RegState) (i : Nat) : RegState :=
  if i < count then
    let w := st.workers i
    if w.pc = 0 then
      -- main.go:106-115: key, registerationData, resp, duration := RegisterNewUser(...)
      let data := registerationData (registrationKey (now i) i)
      let r := RegisterNewUser (env i) data
      { st with
        workers := Function.update st.workers i { w with pc := 1, resp := r.1, duration := r.2 }
        calls := st.calls ++ [data] }
    else if w.pc = 1 then
      -- main.go:116: users[i] = resp
      { st with
        users := st.users.set i w.resp
        workers := Function.update st.workers i { w with pc := 2 } }
    else if w.pc = 2 then
      -- main.go:117, first half of `+=`: read totalSumDuration
      { st with
        workers := Function.update st.workers i { w with pc := 3, loaded := st.totalSumDuration } }
    else if w.pc = 3 then
      -- main.go:117, second half of `+=`: write back the sum
      { st with
        totalSumDuration := wrap64 (w.loaded + w.duration)
        workers := Function.update st.workers i { w with pc := 4 } }
    else if w.pc = 4 then
      -- main.go:118: waiter.Done()
      { st with workers := Function.update st.workers i { w with pc := 5 } }
    else st
  else st

/-- The batch under a schedule. -/
def regRun (count : Nat) (now : Nat → Int) (env : Nat → HttpEnv RegisterResponse)
    (sched : List Nat) : RegState :=
  sched.foldl (regStep count now env) (regInit count)

/-- The condition on which `waiter.Wait()` returns (main.go:122): every goroutine of the
batch has called `waiter.Done()`. -/
def regJoined (count : Nat) (st : RegState) : Bool :=
  (List.range count).all (fun i => decide ((st.workers i).pc = 5))

/-- Embedding of `RegisterRandomUsers` (main.go:98-125).  `elapsed` is the reading of
`time.Since(startTime)` at main.go:123.  The result is `none` when the schedule ends while
`waiter.Wait()` is still blocked. -/
def RegisterRandomUsers (count : Nat) (now : Nat → Int) (env : Nat → HttpEnv RegisterResponse)
    (sched : List Nat) (elapsed : Duration) :
    Option (List (Option RegisterResponse) × Duration × Duration) :=
  let st := regRun count now env sched
  if regJoined count st then some (st.users, elapsed, st.totalSumDuration) else none

/-- A schedule lets every goroutine of the batch run to its end: each of the `count`
goroutines is scheduled for its five steps. -/
def Complete (count : Nat) (sched : List Nat) : Prop :=
  ∀ i, i < count → 5 ≤ sched.count i

instance (count : Nat) (sched : List Nat) : Decidable (Complete count sched) :=
  decidable_of_iff (∀ i ∈ List.range count, 5 ≤ sched.count i)
    (by simp [Complete, List.mem_range])

/-- The schedule that runs the goroutines one after the other, in slot order. -/
def sequential (count : Nat) : List Nat :=
  (List.range count).flatMap (fun i => List.replicate 5 i)

/-- The response that the registration of slot `i` yields. -/
def regResp (now : Nat → Int) (env : Nat → HttpEnv RegisterResponse) (i : Nat) :
    Option RegisterResponse :=
  (RegisterNewUser (env i) (registerationData (registrationKey (now i) i))).1

/-- The duration that the registration of slot `i` yields. -/
def regDuration (now : Nat → Int) (env : Nat → HttpEnv RegisterResponse) (i : Nat) :
    Duration :=
  (RegisterNewUser (env i) (registerationData (registrationKey (now i) i))).2

/-! ## One measurement round: dispatch (main.go:163-177) -/

/-- Locals of the goroutine started for slot `i` of a round (main.go:169-174). -/
structure BalWorker where
  pc : Nat
  resp : Option GetBalanceResponse
  duration : Duration
  loaded : Duration

/-- Shared memory of a round and the locals of its goroutines.  `panicked` records a runtime panic
in some goroutine, which ends the whole process. -/
structure RoundState where
  balances : List (Option GetBalanceResponse)
  sumDuration : Duration
  workers : Nat → BalWorker
  panicked : Bool

/-- State after the spawn loop of a round (main.go:163-168):
`balances := make([]*GetBalanceResponse, TOTAL_COUNT)` and the variable `sumDuration` as the
round found it after `sumDuration = 0`. -/
def roundInit (total : Nat) (sumDuration : Duration) : RoundState :=
  { balances := List.replicate total none
    sumDuration := sumDuration
    workers := fun _ => { pc := 0, resp := none, duration := 0, loaded := 0 }
    panicked := false }

/-- One step of goroutine `i` of a round (main.go:169-174).  There is one goroutine for every
index of `users`; after a panic nothing runs any more. -/
def roundStep (gasName : String) (users : List (Option RegisterResponse))
    (env : Nat → HttpEnv GetBalanceResponse) (st : RoundState) (i : Nat) : RoundState :=
  if st.panicked then st
  else
    match users[i]? with
    | none => st
    | some user =>
      let w := st.workers i
      if w.pc = 0 then
        -- main.go:170: resp, duration := GetBalanceRequest(user.Data.AccessToken, GAS_NAME)
        match user with
        | none => { st with panicked := true }
        | some u =>
          let r := GetBalanceRequest (env i) u.Data.AccessToken gasName
          { st with
            workers := Function.update st.workers i
              { w with pc := 1, resp := r.1, duration := r.2 } }
      else if w.pc = 1 then
        -- main.go:171, first half of `+=`: read sumDuration
        { st with
          workers := Function.update st.workers i { w with pc := 2, loaded := st.sumDuration } }
      else if w.pc = 2 then
        -- main.go:171, second half of `+=`: write back the sum
        { st with
          sumDuration := wrap64 (w.loaded + w.duration)
          workers := Function.update st.workers i { w with pc := 3 } }
      else if w.pc = 3 then
        -- main.go:172: balances[i] = resp (index checked at run time)
        if i < st.balances.length then
          { st with
            balances := st.balances.set i w.resp
            workers := Function.update st.workers i { w with pc := 4 } }
        else { st with panicked := true }
      else if w.pc = 4 then
        -- main.go:173: waiter.Done()
        { st with workers := Function.update st.workers i { w with pc := 5 } }
      else st

/-- The goroutines of a round under a schedule. -/
def roundRun (total : Nat) (gasName : String) (users : List (Option RegisterResponse))
    (env : Nat → HttpEnv GetBalanceResponse) (sumDuration : Duration) (sched : List Nat) :
    RoundState :=
  sched.foldl (roundStep gasName users env) (roundInit total sumDuration)

/-- The condition on which `waiter.Wait()` returns (main.go:176). -/
def roundJoined (users : List (Option RegisterResponse)) (st : RoundState) : Bool :=
  (List.range users.length).all (fun i => decide ((st.workers i).pc = 5))

/-- How the dispatch of a round ends: a goroutine panicked, the schedule ended while
`waiter.Wait()` was still blocked, or the join returned with these `balances` and this
`sumDuration`. -/
inductive Dispatch where
  | panicked
  | blocked
  | joined (balances : List (Option GetBalanceResponse)) (sumDuration : Duration)
  deriving DecidableEq, Repr

/-- Dispatch and join of one round (main.go:163-176), started with the variable
`sumDuration` holding `sumDuration`. -/
def dispatch (total : Nat) (gasName : String) (users : List (Option RegisterResponse))
    (env : Nat → HttpEnv GetBalanceResponse) (sumDuration : Duration) (sched : List Nat) :
    Dispatch :=
  let st := roundRun total gasName users env sumDuration sched
  if st.panicked then Dispatch.panicked
  else if roundJoined users st then Dispatch.joined st.balances st.sumDuration
  else Dispatch.blocked

/-- The response that the balance lookup of slot `i` yields for user `u`. -/
def balResp (gasName : String) (env : Nat → HttpEnv GetBalanceResponse) (i : Nat)
    (u : RegisterResponse) : Option GetBalanceResponse :=
  (GetBalanceRequest (env i) u.Data.AccessToken gasName).1

/-! ## Report: `LogPerformanceTest` (main.go:127-153) -/

/-- The library formatters used for a row: verb `%f` on a `float64` and verb `%v` on a
`time.Duration`. -/
structure Fmt where
  f : Float64 → String
  v : Duration → String

/-- The file system as seen by one report: whether `os.OpenFile` succeeds, whether the
`k`-th call of `file.WriteString` succeeds (the header is call 0, row `i` is call `i + 1`),
and how many bytes of its string the `k`-th call has put into the file when it fails (a short
write: the source discards the byte count that `WriteString` returns). -/
structure FileEnv where
  openOk : Bool
  writeOk : Nat → Bool
  shortBytes : Nat → Nat

/-- How `LogPerformanceTest` ends. -/
inductive LogStatus where
  | openError
  | headerError
  | rowError (i : Nat)
  | nilDeref (i : Nat)
  | ok
  deriving DecidableEq, Repr

/-- What `LogPerformanceTest` leaves behind: the file name, the strings that were written
to the file in full, in order, how the call ended, and, when a write failed, the string of
that write with the number of its leading bytes that reached the file after the strings
written in full. -/
structure LogResult where
  filename : String
  written : List String
  status : LogStatus
  cut : Option (String × Nat) := none
  deriving DecidableEq, Repr

/-- The header line (main.go:139). -/
def csvHeader : String := "Username,Balance,ActualDuration,SumDuration\n"

/-- The row text `fmt.Sprintf("%s, %f, %v, %v\n", ...)` (main.go:145). -/
def csvRow (fmt : Fmt) (u : RegisterResponse) (b : GetBalanceResponse)
    (actualDuration sumDuration : Duration) : String :=
  u.Data.Username ++ ", " ++ fmt.f b.Data ++ ", " ++ fmt.v actualDuration ++ ", " ++
    fmt.v sumDuration ++ "\n"

/-- The row loop `for i := 0; i < length; i++` (main.go:144-150), entered at index `i` with
`remaining = length - i` iterations to go.  Returns the rows written in full, how the loop
ended and what a failing write left of its row.
`users[i].Data` and `balances[i].Data` dereference the pointers; a `nil` one panics. -/
def logRows (fmt : Fmt) (fs : FileEnv) (users : List (Option RegisterResponse))
    (balances : List (Option GetBalanceResponse)) (actualDuration sumDuration : Duration) :
    Nat → Nat → List String × LogStatus × Option (String × Nat)
  | 0, _ => ([], LogStatus.ok, none)
  | remaining + 1, i =>
    match users[i]? with
    | some (some u) =>
      match balances[i]? with
      | some (some b) =>
        let logText := csvRow fmt u b actualDuration sumDuration
        if fs.writeOk (i + 1) then
          let rest := logRows fmt fs users balances actualDuration sumDuration remaining (i + 1)
          (logText :: rest.1, rest.2.1, rest.2.2)
        else
          ([], LogStatus.rowError i,
            some (logText, min (fs.shortBytes (i + 1)) logText.utf8ByteSize))
      | _ => ([], LogStatus.nilDeref i, none)
    | _ => ([], LogStatus.nilDeref i, none)

/-- Embedding of `LogPerformanceTest` (main.go:127-153).  `now` is the reading of
`time.Now().Unix()` used for the file name. -/
def LogPerformanceTest (fmt : Fmt) (now : Int) (fs : FileEnv)
    (users : List (Option RegisterResponse)) (balances : List (Option GetBalanceResponse))
    (actualDuration sumDuration : Duration) : LogResult :=
  let filename := "log_" ++ fmtD now ++ ".csv"
  if fs.openOk = false then
    { filename := filename, written := [], status := LogStatus.openError, cut := none }
  else
    let length := min users.length balances.length
    if fs.writeOk 0 = false then
      { filename := filename, written := [], status := LogStatus.headerError,
        cut := some (csvHeader, min (fs.shortBytes 0) csvHeader.utf8ByteSize) }
    else
      let rows := logRows fmt fs users balances actualDuration sumDuration length 0
      { filename := filename, written := csvHeader :: rows.1, status := rows.2.1,
        cut := rows.2.2 }

/-! ## The measurement loop of `main` (main.go:155-181) -/

/-- The variables of `main` that live across rounds (main.go:160). -/
structure MainVars where
  users : List (Option RegisterResponse)
  actualDuration : Duration
  sumDuration : Duration

/-- What one round obtains from outside: the outside world of each lookup, the schedule of
its goroutines, the reading of `time.Since(startTime)` (main.go:177), the clock reading used
for the file name of the report and the file system. -/
structure RoundInput where
  env : Nat → HttpEnv GetBalanceResponse
  sched : List Nat
  elapsed : Duration
  logNow : Int
  fs : FileEnv

/-- The arguments of one call `LogPerformanceTest(users, balances, actualDuration,
sumDuration)` (main.go:178). -/
structure LogCall where
  users : List (Option RegisterResponse)
  balances : List (Option GetBalanceResponse)
  actualDuration : Duration
  sumDuration : Duration
  deriving DecidableEq, Repr

/-- How one iteration of the `for` loop ends: the process died in a goroutine of the
dispatch, the join never returned, or `LogPerformanceTest` was called with `call` and left
`report`, the variables of `main` now being `vars`. -/
inductive RoundOutcome where
  | panicked
  | blocked
  | logged (vars : MainVars) (call : LogCall) (report : LogResult)

/-- One iteration of the `for` loop (main.go:163-179). -/
def roundBody (total : Nat) (gasName : String) (fmt : Fmt) (vars : MainVars)
    (r : RoundInput) : RoundOutcome :=
  -- main.go:165: sumDuration = 0
  let vars := { vars with sumDuration := 0 }
  match dispatch total gasName vars.users r.env vars.sumDuration r.sched with
  | Dispatch.panicked => RoundOutcome.panicked
  | Dispatch.blocked => RoundOutcome.blocked
  | Dispatch.joined balances sumDuration =>
    -- main.go:177: actualDuration = time.Since(startTime)
    let vars := { vars with sumDuration := sumDuration, actualDuration := r.elapsed }
    RoundOutcome.logged vars
      { users := vars.users, balances := balances,
        actualDuration := vars.actualDuration, sumDuration := vars.sumDuration }
      (LogPerformanceTest fmt r.logNow r.fs vars.users balances vars.actualDuration
        vars.sumDuration)

/-- Whether a report ended in a nil dereference. -/
def LogStatus.isPanic : LogStatus → Bool
  | LogStatus.nilDeref _ => true
  | _ => false

/-- The `for` loop of `main` (main.go:162-180) over the rounds for which inputs are given.
Returns the calls of `LogPerformanceTest` in order, each with the report it left.  The loop
ends early when the process dies or a join never returns. -/
def mainLoop (total : Nat) (gasName : String) (fmt : Fmt) :
    MainVars → List RoundInput → List (LogCall × LogResult)
  | _, [] => []
  | vars, r :: rs =>
    match roundBody total gasName fmt vars r with
    | RoundOutcome.panicked => []
    | RoundOutcome.blocked => []
    | RoundOutcome.logged vars1 call report =>
      if report.status.isPanic then [(call, report)]
      else (call, report) :: mainLoop total gasName fmt vars1 rs

/-- Embedding of `main` (main.go:155-181) with the constants `TOTAL_COUNT` and `GAS_NAME` as
arguments: the bootstrap batch followed by the measurement loop. -/
def mainWith (total : Nat) (gasName : String) (fmt : Fmt) (now : Nat → Int)
    (regEnv : Nat → HttpEnv RegisterResponse) (regSched : List Nat) (regElapsed : Duration)
    (rounds : List RoundInput) : List (LogCall × LogResult) :=
  match RegisterRandomUsers total now regEnv regSched regElapsed with
  | none => []
  | some (users, actualDuration, sumDuration) =>
    mainLoop total gasName fmt
      { users := users, actualDuration := actualDuration, sumDuration := sumDuration } rounds

/-- The constant `TOTAL_COUNT` (main.go:157). -/
def TOTAL_COUNT : Nat := 500

/-- The constant `GAS_NAME` (main.go:158). -/
def GAS_NAME : String := "gas"

/-- The program `main`. -/
def main (fmt : Fmt) (now : Nat → Int) (regEnv : Nat → HttpEnv RegisterResponse)
    (regSched : List Nat) (regElapsed : Duration) (rounds : List RoundInput) :
    List (LogCall × LogResult) :=
  mainWith TOTAL_COUNT GAS_NAME fmt now regEnv regSched regElapsed rounds

/-! ## Invariants of the two batches -/

/-- What holds of the bootstrap batch after any number of steps: the slice keeps its length,
a goroutine past its call holds the outcome of its own call, and slot `i` holds the response
of goroutine `i` once that goroutine is past its write, and `nil` before. -/
def RegInv (count : Nat) (now : Nat → Int) (env : Nat → HttpEnv RegisterResponse)
    (st : RegState) : Prop :=
  st.users.length = count ∧
  ∀ i, i < count →
    (1 ≤ (st.workers i).pc →
      (st.workers i).resp = regResp now env i ∧
      (st.workers i).duration = regDuration now env i) ∧
    st.users[i]? = some (if 2 ≤ (st.workers i).pc then regResp now env i else none)

/-- What holds of a round over users that are all present, after any number of steps: no
goroutine has panicked, the slice keeps its length, a goroutine past its call holds the
outcome of its own lookup, and slot `i` holds the response of goroutine `i` once that
goroutine is past its write, and `nil` before. -/
def RoundInv (total : Nat) (gasName : String) (us : List RegisterResponse)
    (env : Nat → HttpEnv GetBalanceResponse) (st : RoundState) : Prop :=
  st.panicked = false ∧ st.balances.length = total ∧
  ∀ i u, us[i]? = some u →
    (1 ≤ (st.workers i).pc → (st.workers i).resp = balResp gasName env i u) ∧
    st.balances[i]? = some (if 4 ≤ (st.workers i).pc then balResp gasName env i u else none)

/-! ## Decimal numerals -/

/-- Value of a decimal digit character. -/
def digitVal (c : Char) : Nat := c.toNat - 48

/-- Value of a decimal numeral read from the left. -/
def decimalVal (l : List Char) : Nat := l.foldl (fun a c => 10 * a + digitVal c) 0

/-! ## Sample inputs -/

/-- A registered user with the given access token and user name. -/
def sampleUser (token name : String) : RegisterResponse :=
  { Data :=
      { AccessRequestCount := 0, AccessToken := token, Username := name, Email := "",
        Admin := false, Avatar := "", FollowerCount := 0, FollowingCount := 0, Info := "" }
    Status := "success", Message := "", Fields := "" }

/-- A registration service that answers every request after `d` nanoseconds. -/
def upRegEnv (d : Duration) : HttpEnv RegisterResponse :=
  { marshal := fun _ => some "", urlOk := fun _ => true, send := fun _ => some "",
    decode := fun _ => some (sampleUser "t" "u"), elapsed := d }

/-- A registration service that is unreachable: every request is a transport error. -/
def downRegEnv : HttpEnv RegisterResponse :=
  { marshal := fun _ => some "", urlOk := fun _ => true, send := fun _ => none,
    decode := fun _ => none, elapsed := 0 }

/-- A balance answer. -/
def sampleBalance : GetBalanceResponse :=
  { Data := { bits := 0 }, Status := "success", Message := "", Fields := "" }

/-- A balance service that answers every request after `d` nanoseconds. -/
def upBalEnv (d : Duration) : HttpEnv GetBalanceResponse :=
  { marshal := fun _ => some "", urlOk := fun _ => true, send := fun _ => some "",
    decode := fun _ => some sampleBalance, elapsed := d }

/-- A balance service that is unreachable: every request is a transport error. -/
def downBalEnv : HttpEnv GetBalanceResponse :=
  { marshal := fun _ => some "", urlOk := fun _ => true, send := fun _ => none,
    decode := fun _ => none, elapsed := 0 }

/-- A file system on which every operation succeeds. -/
def okFs : FileEnv := { openOk := true, writeOk := fun _ => true, shortBytes := fun _ => 0 }

/-- Formatters that print the bit pattern and the nanosecond count. -/
def sampleFmt : Fmt := { f := fun x => toString x.bits, v := fun d => toString d }

/-- The round-robin schedule of two goroutines: they alternate step by step, so both read
the shared accumulator before either writes it back. -/
def racySchedule : List Nat := [0, 1, 0, 1, 0, 1, 0, 1, 0, 1]

/-- A round against a reachable balance service under the schedule `sched`. -/
def upRound (sched : List Nat) : RoundInput :=
  { env := fun i => upBalEnv (10 * (i + 1)), sched := sched, elapsed := 25, logNow := 1700000000,
    fs := okFs }

/-! # Theorems -/

/-! ## Bootstrap batch: invariants under every schedule -/

theorem regInv_init (count : Nat) (now : Nat → Int) (env : Nat → HttpEnv RegisterResponse) :
    RegInv count now env (regInit count) := by
  refine ⟨by simp [regInit], fun i hi => ⟨?_, ?_⟩⟩
  · simp [regInit]
  · simp [regInit, List.getElem?_replicate, hi]

theorem regInv_step (count : Nat) (now : Nat → Int) (env : Nat → HttpEnv RegisterResponse)
    (st : RegState) (j : Nat) (h : RegInv count now env st) :
    RegInv count now env (regStep count now env st j) := by
  obtain ⟨hlen, hall⟩ := h
  dsimp only [regStep]
  split_ifs with hj h0 h1 h2 h3 h4
  all_goals first
    | exact ⟨hlen, hall⟩
    | (refine ⟨by simpa using hlen, fun i hi => ?_⟩
       have hi' := hall i hi
       by_cases hij : i = j
       · subst hij
         simp_all [regResp, regDuration, List.getElem?_set]
       · have hji : j ≠ i := fun e => hij e.symm
         simp_all [Function.update_noteq, List.getElem?_set])

theorem regInv_run (count : Nat) (now : Nat → Int) (env : Nat → HttpEnv RegisterResponse)
    (sched : List Nat) : RegInv count now env (regRun count now env sched) := by
  unfold regRun
  induction sched using List.reverseRecOn with
  | nil => exact regInv_init count now env
  | append_singleton l j ih =>
    rw [List.foldl_append]
    exact regInv_step count now env _ j ih

theorem regStep_pc (count : Nat) (now : Nat → Int) (env : Nat → HttpEnv RegisterResponse)
    (st : RegState) (i j : Nat) :
    ((regStep count now env st j).workers i).pc =
      if i = j ∧ j < count ∧ (st.workers i).pc < 5 then (st.workers i).pc + 1
      else (st.workers i).pc := by
  dsimp only [regStep]
  by_cases hij : i = j
  · subst hij
    split_ifs <;> simp_all
    omega
  · have hji : j ≠ i := fun e => hij e.symm
    split_ifs <;> simp_all [Function.update_noteq]

theorem regRun_pc (count : Nat) (now : Nat → Int) (env : Nat → HttpEnv RegisterResponse)
    (sched : List Nat) (i : Nat) (hi : i < count) :
    ((regRun count now env sched).workers i).pc = min 5 (sched.count i) := by
  unfold regRun
  induction sched using List.reverseRecOn with
  | nil => simp [regInit]
  | append_singleton l j ih =>
    rw [List.foldl_append]
    simp only [List.foldl_cons, List.foldl_nil, regStep_pc, ih, List.count_append]
    by_cases hij : i = j
    · subst hij
      simp only [true_and, hi, List.count_cons_self, List.count_nil]
      split_ifs <;> omega
    · have hji : j ≠ i := fun e => hij e.symm
      simp [hij, List.count_cons, hji]

theorem regJoined_of_complete (count : Nat) (now : Nat → Int)
    (env : Nat → HttpEnv RegisterResponse) (sched : List Nat) (h : Complete count sched) :
    regJoined count (regRun count now env sched) = true := by
  simp only [regJoined, List.all_eq_true, List.mem_range, decide_eq_true_eq]
  intro i hi
  rw [regRun_pc count now env sched i hi]
  have := h i hi
  omega

/-- Under a complete schedule the bootstrap batch returns, and it returns the slice in which
slot `i` is the response of registration `i`. -/
theorem RegisterRandomUsers_eq (count : Nat) (now : Nat → Int)
    (env : Nat → HttpEnv RegisterResponse) (sched : List Nat) (elapsed : Duration)
    (h : Complete count sched) :
    ∃ total, RegisterRandomUsers count now env sched elapsed =
      some ((List.range count).map (regResp now env), elapsed, total) := by
  refine ⟨(regRun count now env sched).totalSumDuration, ?_⟩
  simp only [RegisterRandomUsers, regJoined_of_complete count now env sched h, if_true]
  congr 2
  obtain ⟨hlen, hall⟩ := regInv_run count now env sched
  apply List.ext_getElem?
  intro i
  by_cases hi : i < count
  · have h1 := (hall i hi).2
    have h2 := regRun_pc count now env sched i hi
    have h3 := h i hi
    rw [h1, h2]
    simp [hi, List.getElem?_range, h3]
  · rw [List.getElem?_eq_none (by omega), List.getElem?_eq_none (by simp; omega)]

theorem complete_sequential (count : Nat) : Complete count (sequential count) := by
  induction count with
  | zero => intro i hi; omega
  | succ n ih =>
    intro i hi
    have hs : sequential (n + 1) = sequential n ++ List.replicate 5 n := by
      simp [sequential, List.range_succ, List.flatMap_append]
    rw [hs, List.count_append]
    by_cases hin : i < n
    · have := ih i hin
      omega
    · have : i = n := by omega
      subst this
      simp

/-! ## Measurement round: invariants under every schedule -/

theorem roundInv_init (total : Nat) (gasName : String) (us : List RegisterResponse)
    (env : Nat → HttpEnv GetBalanceResponse) (s : Duration) (hlen : us.length ≤ total) :
    RoundInv total gasName us env (roundInit total s) := by
  refine ⟨rfl, by simp [roundInit], fun i u hu => ⟨?_, ?_⟩⟩
  · simp [roundInit]
  · have hi : i < us.length := (List.getElem?_eq_some_iff.mp hu).1
    simp [roundInit, List.getElem?_replicate]
    omega

theorem roundInv_step (total : Nat) (gasName : String) (us : List RegisterResponse)
    (env : Nat → HttpEnv GetBalanceResponse) (st : RoundState) (j : Nat)
    (hlen : us.length ≤ total) (h : RoundInv total gasName us env st) :
    RoundInv total gasName us env (roundStep gasName (us.map some) env st j) := by
  obtain ⟨hp, hb, hall⟩ := h
  dsimp only [roundStep]
  rw [if_neg (by simp [hp])]
  cases huj : us[j]? with
  | none => simpa [huj] using ⟨hp, hb, hall⟩
  | some uj =>
    have hj : j < us.length := (List.getElem?_eq_some_iff.mp huj).1
    have hjb : j < st.balances.length := by omega
    simp only [List.getElem?_map, huj, Option.map_some']
    split_ifs with h0 h1 h2 h3 h4
    all_goals first
      | exact ⟨hp, hb, hall⟩
      | (refine ⟨hp, by simpa using hb, fun i u hu => ?_⟩
         have hi' := hall i u hu
         by_cases hij : i = j
         · subst hij
           have huu : uj = u := by rw [huj] at hu; exact Option.some.inj hu
           subst huu
           simp_all [balResp, List.getElem?_set]
         · have hji : j ≠ i := fun e => hij e.symm
           simp_all [Function.update_noteq, List.getElem?_set])

theorem roundInv_run (total : Nat) (gasName : String) (us : List RegisterResponse)
    (env : Nat → HttpEnv GetBalanceResponse) (s : Duration) (sched : List Nat)
    (hlen : us.length ≤ total) :
    RoundInv total gasName us env (roundRun total gasName (us.map some) env s sched) := by
  unfold roundRun
  induction sched using List.reverseRecOn with
  | nil => exact roundInv_init total gasName us env s hlen
  | append_singleton l j ih =>
    rw [List.foldl_append]
    exact roundInv_step total gasName us env _ j hlen ih

theorem roundStep_pc (total : Nat) (gasName : String) (us : List RegisterResponse)
    (env : Nat → HttpEnv GetBalanceResponse) (st : RoundState) (i j : Nat)
    (hlen : us.length ≤ total) (h : RoundInv total gasName us env st) :
    ((roundStep gasName (us.map some) env st j).workers i).pc =
      if i = j ∧ j < us.length ∧ (st.workers i).pc < 5 then (st.workers i).pc + 1
      else (st.workers i).pc := by
  obtain ⟨hp, hb, _⟩ := h
  dsimp only [roundStep]
  rw [if_neg (by simp [hp])]
  cases huj : us[j]? with
  | none =>
    have : ¬ j < us.length := by
      intro hj
      rw [List.getElem?_eq_getElem hj] at huj
      exact Option.noConfusion huj
    simp [huj, this]
  | some uj =>
    have hj : j < us.length := (List.getElem?_eq_some_iff.mp huj).1
    have hjb : j < st.balances.length := by omega
    simp only [List.getElem?_map, huj, Option.map_some']
    by_cases hij : i = j
    · subst hij
      split_ifs <;> simp_all
      omega
    · have hji : j ≠ i := fun e => hij e.symm
      split_ifs <;> simp_all [Function.update_noteq]

theorem roundRun_pc (total : Nat) (gasName : String) (us : List RegisterResponse)
    (env : Nat → HttpEnv GetBalanceResponse) (s : Duration) (sched : List Nat) (i : Nat)
    (hlen : us.length ≤ total) (hi : i < us.length) :
    ((roundRun total gasName (us.map some) env s sched).workers i).pc =
      min 5 (sched.count i) := by
  induction sched using List.reverseRecOn with
  | nil => simp [roundRun, roundInit]
  | append_singleton l j ih =>
    have hinv := roundInv_run total gasName us env s l hlen
    have hstep := roundStep_pc total gasName us env _ i j hlen hinv
    unfold roundRun at ih hstep ⊢
    rw [List.foldl_append]
    simp only [List.foldl_cons, List.foldl_nil, hstep, ih, List.count_append]
    by_cases hij : i = j
    · subst hij
      simp only [true_and, hi, List.count_cons_self, List.count_nil]
      split_ifs <;> omega
    · have hji : j ≠ i := fun e => hij e.symm
      simp [hij, List.count_cons, hji]

/-- Under a complete schedule the dispatch of a round over users that are all present
joins, and slot `i` of the joined `balances` is the response of the lookup of slot `i`. -/
theorem dispatch_joined (total : Nat) (gasName : String) (us : List RegisterResponse)
    (env : Nat → HttpEnv GetBalanceResponse) (s : Duration) (sched : List Nat)
    (hlen : us.length ≤ total) (h : Complete us.length sched) :
    ∃ balances sum,
      dispatch total gasName (us.map some) env s sched = Dispatch.joined balances sum ∧
      balances.length = total ∧
      ∀ i u, us[i]? = some u → balances[i]? = some (balResp gasName env i u) := by
  obtain ⟨hp, hb, hall⟩ := roundInv_run total gasName us env s sched hlen
  have hjoin : roundJoined (us.map some)
      (roundRun total gasName (us.map some) env s sched) = true := by
    simp only [roundJoined, List.all_eq_true, List.mem_range, decide_eq_true_eq,
      List.length_map]
    intro i hi
    rw [roundRun_pc total gasName us env s sched i hlen hi]
    have := h i hi
    omega
  refine ⟨(roundRun total gasName (us.map some) env s sched).balances,
    (roundRun total gasName (us.map some) env s sched).sumDuration, ?_, hb, ?_⟩
  · simp [dispatch, hp, hjoin]
  · intro i u hu
    have hi : i < us.length := (List.getElem?_eq_some_iff.mp hu).1
    have h1 := (hall i u hu).2
    have h2 := roundRun_pc total gasName us env s sched i hlen hi
    have h3 := h i hi
    rw [h1, h2]
    simp [h3]

/-! ## Remote operations -/

/-- C9: `GetBalanceRequest` and `RegisterNewUser` either hit one of their failure paths and
then return exactly `(nil, 0)`, adding nothing to any sum, or hit none and then return a
non-nil response with the measured duration. -/
theorem remote_call_failure_signalling (benv : HttpEnv GetBalanceResponse)
    (renv : HttpEnv RegisterResponse) (accessToken tokenName : String)
    (data : List (String × Val)) :
    ((balanceCallFails benv accessToken tokenName ∧
        GetBalanceRequest benv accessToken tokenName = (none, 0) ∧
        ∀ s : Duration, s + (GetBalanceRequest benv accessToken tokenName).2 = s) ∨
      (¬ balanceCallFails benv accessToken tokenName ∧
        ∃ resp, GetBalanceRequest benv accessToken tokenName = (some resp, benv.elapsed))) ∧
    ((registerCallFails renv data ∧
        RegisterNewUser renv data = (none, 0) ∧
        ∀ s : Duration, s + (RegisterNewUser renv data).2 = s) ∨
      (¬ registerCallFails renv data ∧
        ∃ resp, RegisterNewUser renv data = (some resp, renv.elapsed))) := by
  constructor
  · unfold balanceCallFails GetBalanceRequest
    cases hu : benv.urlOk ("http://localhost:8080/api/user/balance?token=" ++ tokenName) with
    | false => left; simp
    | true =>
      cases hs : benv.send (balanceRequest accessToken tokenName) with
      | none => left; simp
      | some body =>
        cases hd : benv.decode body with
        | none => left; simp [hd]
        | some resp => right; simp [hd]
  · unfold registerCallFails RegisterNewUser
    cases hm : renv.marshal data with
    | none => left; simp
    | some jsonData =>
      cases hu : renv.urlOk "http://localhost:8080/api/auth/register" with
      | false => left; simp
      | true =>
        cases hs : renv.send (registerRequest jsonData) with
        | none => left; simp [hs]
        | some body =>
          cases hd : renv.decode body with
          | none => left; simp [hs, hd]
          | some resp => right; simp [hs, hd]

/-! ## Registration keys -/

theorem digitVal_digitChar (k : Nat) (h : k < 10) : digitVal (Nat.digitChar k) = k := by
  interval_cases k <;> rfl

theorem toDigitsCore_append (fuel : Nat) : ∀ (n : Nat) (ds : List Char),
    Nat.toDigitsCore 10 fuel n ds = Nat.toDigitsCore 10 fuel n [] ++ ds := by
  induction fuel with
  | zero => intro n ds; simp [Nat.toDigitsCore]
  | succ f ih =>
    intro n ds
    simp only [Nat.toDigitsCore]
    split
    · simp
    · rw [ih (n / 10) (Nat.digitChar (n % 10) :: ds), ih (n / 10) [Nat.digitChar (n % 10)]]
      simp

theorem decimalVal_toDigitsCore (fuel : Nat) : ∀ n : Nat, n < fuel →
    decimalVal (Nat.toDigitsCore 10 fuel n []) = n := by
  induction fuel with
  | zero => intro n h; omega
  | succ f ih =>
    intro n h
    simp only [Nat.toDigitsCore]
    split
    · have hn : n < 10 := by omega
      have hm : n % 10 = n := by omega
      simp [decimalVal, hm, digitVal_digitChar n hn]
    · rw [toDigitsCore_append]
      have hlt : n / 10 < f := by omega
      have hv := ih (n / 10) hlt
      simp only [decimalVal, List.foldl_append, List.foldl_cons, List.foldl_nil] at hv ⊢
      rw [hv, digitVal_digitChar (n % 10) (Nat.mod_lt _ (by decide))]
      omega

theorem decimalVal_repr (n : Nat) : decimalVal (Nat.repr n).data = n := by
  simp only [Nat.repr, Nat.toDigits, List.asString]
  exact decimalVal_toDigitsCore (n + 1) n (by omega)

theorem fmtD_natCast (n : Nat) : fmtD (n : Int) = Nat.repr n := rfl

theorem fmtD_natCast_inj {m n : Nat} (h : fmtD (m : Int) = fmtD (n : Int)) : m = n := by
  rw [fmtD_natCast, fmtD_natCast] at h
  have hv := congrArg (fun s => decimalVal s.data) h
  simpa [decimalVal_repr] using hv

/-- C5, as stated, fails: slot 11 reading timestamp 1 and slot 1 reading timestamp 11 build
the same key `unix111`, hence the same username and the same email. -/
theorem registrationKey_collision :
    (11 : Nat) ≠ 1 ∧ (0 : Int) ≤ 1 ∧ (0 : Int) ≤ 11 ∧ 11 < TOTAL_COUNT ∧ 1 < TOTAL_COUNT ∧
    registrationKey 1 11 = registrationKey 11 1 ∧
    registerationData (registrationKey 1 11) = registerationData (registrationKey 11 1) := by
  decide

theorem fmtD_nat_ne {i j : Nat} (hij : i ≠ j) : fmtD (i : Int) ≠ fmtD (j : Int) :=
  fun h => hij (fmtD_natCast_inj h)

theorem registrationKey_eq_split (ti tj : Int) (i j : Nat) (hij : i ≠ j) :
    registrationKey ti i = registrationKey tj j ↔
      (∃ d : String, d ≠ "" ∧ fmtD tj = fmtD ti ++ d ∧ fmtD (i : Int) = d ++ fmtD (j : Int)) ∨
      (∃ d : String, d ≠ "" ∧ fmtD ti = fmtD tj ++ d ∧ fmtD (j : Int) = d ++ fmtD (i : Int)) := by
  constructor
  · intro h
    have hd := congrArg String.data h
    simp only [registrationKey, String.data_append, List.append_assoc] at hd
    have hd2 := List.append_cancel_left hd
    rcases List.append_eq_append_iff.mp hd2 with ⟨d, h1, h2⟩ | ⟨d, h1, h2⟩
    · refine Or.inl ⟨⟨d⟩, ?_, String.ext (by simpa using h1), String.ext (by simpa using h2)⟩
      intro hnil
      have hdn : d = [] := congrArg String.data hnil
      subst hdn
      exact fmtD_nat_ne hij (String.ext (by simpa using h2))
    · refine Or.inr ⟨⟨d⟩, ?_, String.ext (by simpa using h1), String.ext (by simpa using h2)⟩
      intro hnil
      have hdn : d = [] := congrArg String.data hnil
      subst hdn
      exact fmtD_nat_ne hij (String.ext (by simpa using h2.symm))
  · rintro (⟨d, _, h1, h2⟩ | ⟨d, _, h1, h2⟩)
    · simp only [registrationKey, h1, h2, String.append_assoc]
    · simp only [registrationKey, h1, h2, String.append_assoc]

/-- C5, amended: for distinct slots `i` and `j` the two keys are equal exactly when the
decimal rendering of one timestamp is the rendering of the other followed by a non-empty
string `d`, and the rendering of the index that goes with the shorter timestamp is `d`
followed by the rendering of the other index; the same holds of the emails, and the
usernames are the keys.  In every other case keys, usernames and emails differ. -/
theorem key_clash_exactly (ti tj : Int) (i j : Nat) (hij : i ≠ j) :
    (registrationKey ti i = registrationKey tj j ↔
      (∃ d : String, d ≠ "" ∧ fmtD tj = fmtD ti ++ d ∧ fmtD (i : Int) = d ++ fmtD (j : Int)) ∨
      (∃ d : String, d ≠ "" ∧ fmtD ti = fmtD tj ++ d ∧
        fmtD (j : Int) = d ++ fmtD (i : Int))) ∧
    (registrationKey ti i ++ "@gmail.com" = registrationKey tj j ++ "@gmail.com" ↔
      (∃ d : String, d ≠ "" ∧ fmtD tj = fmtD ti ++ d ∧ fmtD (i : Int) = d ++ fmtD (j : Int)) ∨
      (∃ d : String, d ≠ "" ∧ fmtD ti = fmtD tj ++ d ∧
        fmtD (j : Int) = d ++ fmtD (i : Int))) ∧
    (registerationData (registrationKey ti i) = registerationData (registrationKey tj j) ↔
      registrationKey ti i = registrationKey tj j) := by
  have hkey := registrationKey_eq_split ti tj i j hij
  refine ⟨hkey, ?_, ?_⟩
  · rw [← hkey]
    constructor
    · intro h
      have hd := congrArg String.data h
      simp only [String.data_append] at hd
      exact String.ext (List.append_cancel_right hd)
    · intro h
      rw [h]
  · constructor
    · intro h
      simp only [registerationData, List.cons.injEq, Prod.mk.injEq, Val.str.injEq] at h
      exact h.2.1.2
    · intro h
      rw [h]

theorem key_clash_exactly_witness :
    (registrationKey 1700000000 3 = registrationKey 1700000001 4 ↔
      (∃ d : String, d ≠ "" ∧ fmtD 1700000001 = fmtD 1700000000 ++ d ∧
        fmtD ((3 : Nat) : Int) = d ++ fmtD ((4 : Nat) : Int)) ∨
      (∃ d : String, d ≠ "" ∧ fmtD 1700000000 = fmtD 1700000001 ++ d ∧
        fmtD ((4 : Nat) : Int) = d ++ fmtD ((3 : Nat) : Int))) ∧
    (registrationKey 1700000000 3 ++ "@gmail.com" =
        registrationKey 1700000001 4 ++ "@gmail.com" ↔
      (∃ d : String, d ≠ "" ∧ fmtD 1700000001 = fmtD 1700000000 ++ d ∧
        fmtD ((3 : Nat) : Int) = d ++ fmtD ((4 : Nat) : Int)) ∨
      (∃ d : String, d ≠ "" ∧ fmtD 1700000000 = fmtD 1700000001 ++ d ∧
        fmtD ((4 : Nat) : Int) = d ++ fmtD ((3 : Nat) : Int))) ∧
    (registerationData (registrationKey 1700000000 3) =
        registerationData (registrationKey 1700000001 4) ↔
      registrationKey 1700000000 3 = registrationKey 1700000001 4) :=
  key_clash_exactly 1700000000 1700000001 3 4 (by decide)

/-! ## Bootstrap batch -/

theorem regRun_zero (now : Nat → Int) (env : Nat → HttpEnv RegisterResponse)
    (sched : List Nat) : regRun 0 now env sched = regInit 0 := by
  unfold regRun
  induction sched with
  | nil => rfl
  | cons j l ih =>
    rw [List.foldl_cons]
    have hs : regStep 0 now env (regInit 0) j = regInit 0 := by simp [regStep]
    rw [hs]
    exact ih

/-- C7: `RegisterRandomUsers(0)` returns, under every schedule, the empty slice and a summed
duration of zero, and `RegisterNewUser` is not invoked. -/
theorem RegisterRandomUsers_zero (now : Nat → Int) (env : Nat → HttpEnv RegisterResponse)
    (sched : List Nat) (elapsed : Duration) :
    RegisterRandomUsers 0 now env sched elapsed = some ([], elapsed, 0) ∧
    (regRun 0 now env sched).calls = [] := by
  simp [RegisterRandomUsers, regRun_zero, regJoined, regInit]

/-- C1: for every `count`, under every schedule that lets all goroutines finish,
`RegisterRandomUsers(count)` returns a slice of length `count` whose slot `i` holds what the
registration call of goroutine `i` returned (a response, or `nil` on failure). -/
theorem RegisterRandomUsers_slots (count : Nat) (now : Nat → Int)
    (env : Nat → HttpEnv RegisterResponse) (sched : List Nat) (elapsed : Duration)
    (h : Complete count sched) :
    ∃ users total,
      RegisterRandomUsers count now env sched elapsed = some (users, elapsed, total) ∧
      users.length = count ∧
      ∀ i, i < count → users[i]? = some
        (RegisterNewUser (env i) (registerationData (registrationKey (now i) i))).1 := by
  obtain ⟨total, ht⟩ := RegisterRandomUsers_eq count now env sched elapsed h
  refine ⟨_, total, ht, by simp, fun i hi => ?_⟩
  simp [List.getElem?_range, hi, regResp]

theorem RegisterRandomUsers_slots_witness :
    ∃ users total,
      RegisterRandomUsers 2 (fun _ => 1700000000)
        (fun i => if i = 0 then downRegEnv else upRegEnv 10) racySchedule 12 =
          some (users, 12, total) ∧
      users.length = 2 ∧
      ∀ i, i < 2 → users[i]? = some
        (RegisterNewUser ((fun i => if i = 0 then downRegEnv else upRegEnv 10) i)
          (registerationData (registrationKey ((fun _ => 1700000000) i) i))).1 :=
  RegisterRandomUsers_slots 2 (fun _ => 1700000000)
    (fun i => if i = 0 then downRegEnv else upRegEnv 10) racySchedule 12 (by decide)

/-- C2, as stated, fails: with two slots of which the first registration fails and the
second succeeds, the returned slice still has length two, holds `nil` in slot 0, and the
success stays in slot 1. -/
theorem RegisterRandomUsers_keeps_failures :
    regResp (fun _ => 1700000000) (fun i => if i = 0 then downRegEnv else upRegEnv 10) 0 = none ∧
    RegisterRandomUsers 2 (fun _ => 1700000000)
      (fun i => if i = 0 then downRegEnv else upRegEnv 10) (sequential 2) 12 =
        some ([none, some (sampleUser "t" "u")], 12, 10) := by
  decide

/-- C2, amended: under every schedule that lets all goroutines finish, the returned slice has
length `count` whatever the pattern of successes and failures; the slot of a failed
registration holds `nil` and a successful registration is found in its own slot. -/
theorem RegisterRandomUsers_positional (count : Nat) (now : Nat → Int)
    (env : Nat → HttpEnv RegisterResponse) (sched : List Nat) (elapsed : Duration)
    (h : Complete count sched) :
    ∃ users total,
      RegisterRandomUsers count now env sched elapsed = some (users, elapsed, total) ∧
      users.length = count ∧
      (∀ i, i < count → regResp now env i = none → users[i]? = some none) ∧
      (∀ i r, i < count → regResp now env i = some r → users[i]? = some (some r)) := by
  obtain ⟨total, ht⟩ := RegisterRandomUsers_eq count now env sched elapsed h
  refine ⟨_, total, ht, by simp, fun i hi hr => ?_, fun i r hi hr => ?_⟩
  · simp [List.getElem?_range, hi, hr]
  · simp [List.getElem?_range, hi, hr]

theorem RegisterRandomUsers_positional_witness :
    ∃ users total,
      RegisterRandomUsers 2 (fun _ => 1700000000)
        (fun i => if i = 0 then downRegEnv else upRegEnv 10) (sequential 2) 12 =
          some (users, 12, total) ∧
      users.length = 2 ∧
      (∀ i, i < 2 →
        regResp (fun _ => 1700000000) (fun i => if i = 0 then downRegEnv else upRegEnv 10) i =
          none → users[i]? = some none) ∧
      (∀ i r, i < 2 →
        regResp (fun _ => 1700000000) (fun i => if i = 0 then downRegEnv else upRegEnv 10) i =
          some r → users[i]? = some (some r)) :=
  RegisterRandomUsers_positional 2 (fun _ => 1700000000)
    (fun i => if i = 0 then downRegEnv else upRegEnv 10) (sequential 2) 12 (by decide)

/-- C4 at a failing input: two goroutines with durations 10 and 20, scheduled so that both
read the accumulator before either writes it back.  The schedule is complete, the exact sum
is 30 (and is what the one-after-the-other schedule yields), and both `RegisterRandomUsers`
and the round of `main` end with 20. -/
theorem summed_duration_lost_update :
    Complete 2 racySchedule ∧
    regDuration (fun _ => 1700000000) (fun i => upRegEnv (10 * (i + 1))) 0 +
      regDuration (fun _ => 1700000000) (fun i => upRegEnv (10 * (i + 1))) 1 = 30 ∧
    (RegisterRandomUsers 2 (fun _ => 1700000000) (fun i => upRegEnv (10 * (i + 1)))
      (sequential 2) 25).map (fun r => r.2.2) = some 30 ∧
    (RegisterRandomUsers 2 (fun _ => 1700000000) (fun i => upRegEnv (10 * (i + 1)))
      racySchedule 25).map (fun r => r.2.2) = some 20 ∧
    (GetBalanceRequest (upBalEnv (10 * (0 + 1))) "t" GAS_NAME).2 +
      (GetBalanceRequest (upBalEnv (10 * (1 + 1))) "t" GAS_NAME).2 = 30 ∧
    dispatch 2 GAS_NAME [some (sampleUser "t" "u"), some (sampleUser "t" "v")]
      (fun i => upBalEnv (10 * (i + 1))) 0 racySchedule =
        Dispatch.joined [some sampleBalance, some sampleBalance] 20 := by
  decide

/-! ## Measurement round -/

/-- C3: in a round over users that are all present, under every schedule that lets all
goroutines finish, the dispatch joins and slot `i` of `balances` is what the lookup made
with the access token of `users[i]` returned. -/
theorem dispatch_slots (total : Nat) (gasName : String) (us : List RegisterResponse)
    (env : Nat → HttpEnv GetBalanceResponse) (s : Duration) (sched : List Nat)
    (hlen : us.length ≤ total) (h : Complete us.length sched) :
    ∃ balances sum,
      dispatch total gasName (us.map some) env s sched = Dispatch.joined balances sum ∧
      balances.length = total ∧
      ∀ i u, us[i]? = some u →
        balances[i]? = some (GetBalanceRequest (env i) u.Data.AccessToken gasName).1 :=
  dispatch_joined total gasName us env s sched hlen h

theorem dispatch_slots_witness :
    ∃ balances sum,
      dispatch 2 GAS_NAME ([sampleUser "t0" "u0", sampleUser "t1" "u1"].map some)
        (fun i => if i = 0 then downBalEnv else upBalEnv 10) 0 racySchedule =
          Dispatch.joined balances sum ∧
      balances.length = 2 ∧
      ∀ i u, [sampleUser "t0" "u0", sampleUser "t1" "u1"][i]? = some u →
        balances[i]? = some (GetBalanceRequest
          ((fun i => if i = 0 then downBalEnv else upBalEnv 10) i) u.Data.AccessToken
          GAS_NAME).1 :=
  dispatch_slots 2 GAS_NAME [sampleUser "t0" "u0", sampleUser "t1" "u1"]
    (fun i => if i = 0 then downBalEnv else upBalEnv 10) 0 racySchedule (by decide) (by decide)

/-- C6 at failing inputs: a round over one present user whose balance lookup fails hands a
`nil` balance to `LogPerformanceTest`, which writes the header and then panics at row 0; and
a round over one `nil` user panics in its goroutine. -/
theorem nil_balance_panics :
    dispatch 1 GAS_NAME [some (sampleUser "t0" "u0")] (fun _ => downBalEnv) 0 (sequential 1) =
      Dispatch.joined [none] 0 ∧
    LogPerformanceTest sampleFmt 1700000000 okFs [some (sampleUser "t0" "u0")] [none] 25 0 =
      { filename := "log_1700000000.csv", written := [csvHeader],
        status := LogStatus.nilDeref 0 } ∧
    (mainLoop 1 GAS_NAME sampleFmt
      { users := [some (sampleUser "t0" "u0")], actualDuration := 0, sumDuration := 0 }
      [{ env := fun _ => downBalEnv, sched := sequential 1, elapsed := 25,
         logNow := 1700000000, fs := okFs }]).map (fun c => c.2.status) =
      [LogStatus.nilDeref 0] ∧
    dispatch 1 GAS_NAME [none] (fun _ => upBalEnv 10) 0 (sequential 1) = Dispatch.panicked := by
  decide

/-! ## Report -/

theorem logRows_present (fmt : Fmt) (fs : FileEnv) (us : List RegisterResponse)
    (bs : List GetBalanceResponse) (a s : Duration) (hw : ∀ k, fs.writeOk k = true) :
    ∀ n i, n + i = min us.length bs.length →
      logRows fmt fs (us.map some) (bs.map some) a s n i =
        (List.zipWith (fun u b => csvRow fmt u b a s) (us.drop i) (bs.drop i),
          LogStatus.ok, none) := by
  intro n
  induction n with
  | zero =>
    intro i hi
    have hz : List.zipWith (fun u b => csvRow fmt u b a s) (us.drop i) (bs.drop i) = [] := by
      rcases Nat.le_total us.length bs.length with hle | hle
      · have : us.drop i = [] := List.drop_eq_nil_of_le (by omega)
        rw [this, List.zipWith_nil_left]
      · have : bs.drop i = [] := List.drop_eq_nil_of_le (by omega)
        rw [this, List.zipWith_nil_right]
    rw [hz]
    rfl
  | succ n ih =>
    intro i hi
    have hu : i < us.length := by omega
    have hb : i < bs.length := by omega
    have hdu : us.drop i = us[i] :: us.drop (i + 1) := List.drop_eq_getElem_cons hu
    have hdb : bs.drop i = bs[i] :: bs.drop (i + 1) := List.drop_eq_getElem_cons hb
    rw [hdu, hdb]
    simp only [logRows, List.getElem?_map, List.getElem?_eq_getElem hu,
      List.getElem?_eq_getElem hb, Option.map_some', hw, if_true, List.zipWith_cons_cons,
      ih (i + 1) (by omega)]

/-- C10: when no entry is `nil`, the file opens and no write fails, `LogPerformanceTest`
writes the header line `Username,Balance,ActualDuration,SumDuration` followed by one row per
index below `min(len(users), len(balances))`, in index order, row `i` built from `users[i]`
and `balances[i]` and every row with the same two durations; and when the header write
fails, at most a leading part of the header has reached the file and no row is written,
whatever the lists hold. -/
theorem LogPerformanceTest_report (fmt : Fmt) (now : Int) (fs : FileEnv)
    (us : List RegisterResponse) (bs : List GetBalanceResponse) (a s : Duration)
    (hopen : fs.openOk = true) (hw : ∀ k, fs.writeOk k = true) :
    LogPerformanceTest fmt now fs (us.map some) (bs.map some) a s =
      { filename := "log_" ++ fmtD now ++ ".csv"
        written := "Username,Balance,ActualDuration,SumDuration\n" ::
          List.zipWith
            (fun u b => u.Data.Username ++ ", " ++ fmt.f b.Data ++ ", " ++ fmt.v a ++ ", " ++
              fmt.v s ++ "\n") us bs
        status := LogStatus.ok
        cut := none } ∧
    (LogPerformanceTest fmt now fs (us.map some) (bs.map some) a s).written[0]? =
      some "Username,Balance,ActualDuration,SumDuration\n" ∧
    (LogPerformanceTest fmt now fs (us.map some) (bs.map some) a s).written.length =
      1 + min us.length bs.length ∧
    (∀ i u b, us[i]? = some u → bs[i]? = some b →
      (LogPerformanceTest fmt now fs (us.map some) (bs.map some) a s).written[i + 1]? =
        some (u.Data.Username ++ ", " ++ fmt.f b.Data ++ ", " ++ fmt.v a ++ ", " ++ fmt.v s ++
          "\n")) ∧
    ∀ (w : Nat → Bool) (n : Nat → Nat) (users : List (Option RegisterResponse))
      (balances : List (Option GetBalanceResponse)),
      LogPerformanceTest fmt now
          { openOk := true, writeOk := Function.update w 0 false, shortBytes := n }
          users balances a s =
        { filename := "log_" ++ fmtD now ++ ".csv"
          written := []
          status := LogStatus.headerError
          cut := some ("Username,Balance,ActualDuration,SumDuration\n", min (n 0) 44) } := by
  have hrows := logRows_present fmt fs us bs a s hw (min us.length bs.length) 0 (by omega)
  have heq : LogPerformanceTest fmt now fs (us.map some) (bs.map some) a s =
      { filename := "log_" ++ fmtD now ++ ".csv"
        written := "Username,Balance,ActualDuration,SumDuration\n" ::
          List.zipWith
            (fun u b => u.Data.Username ++ ", " ++ fmt.f b.Data ++ ", " ++ fmt.v a ++ ", " ++
              fmt.v s ++ "\n") us bs
        status := LogStatus.ok
        cut := none } := by
    simp only [LogPerformanceTest, hopen, hw, List.length_map]
    simp [hrows, csvHeader, csvRow]
  refine ⟨heq, ?_, ?_, ?_, ?_⟩
  · rw [heq]
    simp
  · rw [heq]
    simp [Nat.add_comm]
  · intro i u b hu hb
    rw [heq]
    simp [List.getElem?_zipWith, hu, hb]
  · intro w n users balances
    have hsize : csvHeader.utf8ByteSize = 44 := by decide
    simp only [LogPerformanceTest, hsize]
    simp [csvHeader]

theorem LogPerformanceTest_report_witness :
    LogPerformanceTest sampleFmt 1700000000 okFs
        ([sampleUser "t0" "u0", sampleUser "t1" "u1"].map some)
        ([sampleBalance].map some) 25 30 =
      { filename := "log_" ++ fmtD 1700000000 ++ ".csv"
        written := "Username,Balance,ActualDuration,SumDuration\n" ::
          List.zipWith
            (fun u b => u.Data.Username ++ ", " ++ sampleFmt.f b.Data ++ ", " ++
              sampleFmt.v 25 ++ ", " ++ sampleFmt.v 30 ++ "\n")
            [sampleUser "t0" "u0", sampleUser "t1" "u1"] [sampleBalance]
        status := LogStatus.ok
        cut := none } ∧
    (LogPerformanceTest sampleFmt 1700000000 okFs
        ([sampleUser "t0" "u0", sampleUser "t1" "u1"].map some)
        ([sampleBalance].map some) 25 30).written[0]? =
      some "Username,Balance,ActualDuration,SumDuration\n" ∧
    (LogPerformanceTest sampleFmt 1700000000 okFs
        ([sampleUser "t0" "u0", sampleUser "t1" "u1"].map some)
        ([sampleBalance].map some) 25 30).written.length =
      1 + min [sampleUser "t0" "u0", sampleUser "t1" "u1"].length [sampleBalance].length ∧
    (∀ i u b, [sampleUser "t0" "u0", sampleUser "t1" "u1"][i]? = some u →
      [sampleBalance][i]? = some b →
      (LogPerformanceTest sampleFmt 1700000000 okFs
        ([sampleUser "t0" "u0", sampleUser "t1" "u1"].map some)
        ([sampleBalance].map some) 25 30).written[i + 1]? =
        some (u.Data.Username ++ ", " ++ sampleFmt.f b.Data ++ ", " ++ sampleFmt.v 25 ++ ", " ++
          sampleFmt.v 30 ++ "\n")) ∧
    ∀ (w : Nat → Bool) (n : Nat → Nat) (users : List (Option RegisterResponse))
      (balances : List (Option GetBalanceResponse)),
      LogPerformanceTest sampleFmt 1700000000
          { openOk := true, writeOk := Function.update w 0 false, shortBytes := n }
          users balances 25 30 =
        { filename := "log_" ++ fmtD 1700000000 ++ ".csv"
          written := []
          status := LogStatus.headerError
          cut := some ("Username,Balance,ActualDuration,SumDuration\n", min (n 0) 44) } :=
  LogPerformanceTest_report sampleFmt 1700000000 okFs
    [sampleUser "t0" "u0", sampleUser "t1" "u1"] [sampleBalance] 25 30 rfl (fun _ => rfl)

/-! ## Measurement loop -/

theorem mainLoop_call (total : Nat) (gasName : String) (fmt : Fmt) :
    ∀ (rounds : List RoundInput) (vars : MainVars) (k : Nat) (call : LogCall)
      (report : LogResult),
      (mainLoop total gasName fmt vars rounds)[k]? = some (call, report) →
      ∃ r, rounds[k]? = some r ∧
        dispatch total gasName vars.users r.env 0 r.sched =
          Dispatch.joined call.balances call.sumDuration ∧
        call.users = vars.users ∧ call.actualDuration = r.elapsed ∧
        report = LogPerformanceTest fmt r.logNow r.fs vars.users call.balances r.elapsed
          call.sumDuration := by
  intro rounds
  induction rounds with
  | nil => intro vars k call report h; simp [mainLoop] at h
  | cons r rs ih =>
    intro vars k call report h
    simp only [mainLoop, roundBody] at h
    cases hd : dispatch total gasName vars.users r.env 0 r.sched with
    | panicked => simp [hd] at h
    | blocked => simp [hd] at h
    | joined balances sum =>
      simp only [hd] at h
      cases k with
      | zero =>
        refine ⟨r, by simp, ?_⟩
        split_ifs at h <;>
        · simp only [List.getElem?_cons_zero, Option.some.injEq, Prod.mk.injEq] at h
          obtain ⟨hc, hr⟩ := h
          subst hc
          subst hr
          exact ⟨hd, rfl, rfl, rfl⟩
      | succ k =>
        split_ifs at h
        · simp at h
        · simp only [List.getElem?_cons_succ] at h
          obtain ⟨r1, hr1, h1⟩ := ih _ k call report h
          exact ⟨r1, by simpa using hr1, h1⟩

/-- C8: whatever the variables of `main` hold when the loop is entered and however many
rounds ran before, the `k`-th call of `LogPerformanceTest` receives exactly what the dispatch
of round `k` produces from a fresh `balances` slice and an accumulator reset to zero, on
the inputs of round `k` alone, together with the elapsed time of round `k`. -/
theorem round_isolation (total : Nat) (gasName : String) (fmt : Fmt) (vars : MainVars)
    (rounds : List RoundInput) (k : Nat)
    (hk : k < (mainLoop total gasName fmt vars rounds).length) :
    ∃ r, rounds[k]? = some r ∧
      dispatch total gasName vars.users r.env 0 r.sched =
        Dispatch.joined ((mainLoop total gasName fmt vars rounds)[k]).1.balances
          ((mainLoop total gasName fmt vars rounds)[k]).1.sumDuration ∧
      ((mainLoop total gasName fmt vars rounds)[k]).1.users = vars.users ∧
      ((mainLoop total gasName fmt vars rounds)[k]).1.actualDuration = r.elapsed := by
  obtain ⟨r, hr, hd, hu, ha, _⟩ := mainLoop_call total gasName fmt rounds vars k
    ((mainLoop total gasName fmt vars rounds)[k]).1
    ((mainLoop total gasName fmt vars rounds)[k]).2 (List.getElem?_eq_getElem hk)
  exact ⟨r, hr, hd, hu, ha⟩

theorem round_isolation_witness :
    ∃ r, [upRound (sequential 2), upRound racySchedule][1]? = some r ∧
      dispatch 2 GAS_NAME
          (MainVars.mk [some (sampleUser "t0" "u0"), some (sampleUser "t1" "u1")] 7 9).users
          r.env 0 r.sched =
        Dispatch.joined
          ((mainLoop 2 GAS_NAME sampleFmt
            (MainVars.mk [some (sampleUser "t0" "u0"), some (sampleUser "t1" "u1")] 7 9)
            [upRound (sequential 2), upRound racySchedule])[1]).1.balances
          ((mainLoop 2 GAS_NAME sampleFmt
            (MainVars.mk [some (sampleUser "t0" "u0"), some (sampleUser "t1" "u1")] 7 9)
            [upRound (sequential 2), upRound racySchedule])[1]).1.sumDuration ∧
      ((mainLoop 2 GAS_NAME sampleFmt
          (MainVars.mk [some (sampleUser "t0" "u0"), some (sampleUser "t1" "u1")] 7 9)
          [upRound (sequential 2), upRound racySchedule])[1]).1.users =
        (MainVars.mk [some (sampleUser "t0" "u0"), some (sampleUser "t1" "u1")] 7 9).users ∧
      ((mainLoop 2 GAS_NAME sampleFmt
          (MainVars.mk [some (sampleUser "t0" "u0"), some (sampleUser "t1" "u1")] 7 9)
          [upRound (sequential 2), upRound racySchedule])[1]).1.actualDuration = r.elapsed :=
  round_isolation 2 GAS_NAME sampleFmt
    (MainVars.mk [some (sampleUser "t0" "u0"), some (sampleUser "t1" "u1")] 7 9)
    [upRound (sequential 2), upRound racySchedule] 1 (by decide)

end WalletBalance
